import Mathlib

/-!
Verification of the bootstrap layer of the Host Orchestrator daemon
(`frontend/src/host_orchestrator/main.go`).

The development shallowly embeds the bootstrap code: environment-driven
configuration resolution (`fromEnvOrDefault` and the resolution lines of
`main`), the path-interception rule (`maybeIntercept`), Go's
`filepath.Join`/`filepath.Clean` on Unix (used by `main` for every derived
path), the catch-all fallback choice (reverse proxy vs static file server),
the construction order of the subsystems, the listener starter list, and the
fail-fast listener supervisor (`start`) as a labelled transition system.
-/

/-! ## Constants of the source file -/

def DefaultSocketPath : String := "/run/cuttlefish/operator"

def DefaultHttpPort : String := "1080"

def DefaultTLSCertDir : String := "/etc/cuttlefish-common/host_orchestrator/cert"

def DefaultStaticFilesDir : String := "static"

def DefaultInterceptDir : String := "intercept"

def DefaultWebUIUrl : String := ""

def defaultAndroidBuildURL : String := "https://androidbuildinternal.googleapis.com"

def defaultCVDBinAndroidBuildID : String := "10796991"

def defaultCVDBinAndroidBuildTarget : String := "aosp_cf_x86_64_phone-trunk_staging-userdebug"

def defaultCVDArtifactsDir : String := "/var/lib/cuttlefish-common"

/-! ## Environment and configuration resolution

`Env` models the process environment as seen through `os.LookupEnv`:
`none` means the variable is unset, `some v` means it is set to `v`
(possibly the empty string). -/

def Env : Type := String → Option String

/-- Embedding of `fromEnvOrDefault`: return the environment value when the
variable is present (even if empty), else the default. -/
def fromEnvOrDefault (env : Env) (key : String) (def_ : String) : String :=
  match env key with
  | some val => val
  | none => def_

/-- The empty environment: no variable is set. -/
def envEmpty : Env := fun _ => none

/-- Extend an environment with one binding. -/
def envWith (k v : String) (e : Env) : Env :=
  fun x => if x = k then some v else e x

/-! ## Interception rule -/

/-- Embedding of `maybeIntercept`: exact match on `/js/server_connector.js`
produces `fmt.Sprintf("%s%s", DefaultInterceptDir, path)`, anything else
produces no replacement. -/
def maybeIntercept (path : String) : Option String :=
  if path = "/js/server_connector.js" then
    some (DefaultInterceptDir ++ path)
  else
    none

/-! ## Go `filepath.Join` / `filepath.Clean` (Unix)

Modelled over `List Char` so that concrete instances evaluate in the
kernel. `splitSlash` splits a character list on `/`; `cleanComps`
performs the lexical cleaning of `filepath.Clean`: drop empty and `.`
components, resolve `..` against a previous component, keep leading `..`
components of relative paths, and drop `..` at the root of rooted paths. -/

def splitSlash : List Char → List Char → List (List Char)
  | [], acc => [acc.reverse]
  | c :: rest, acc =>
    if c = '/' then acc.reverse :: splitSlash rest []
    else splitSlash rest (c :: acc)

def cleanComps (rooted : Bool) : List (List Char) → List (List Char) → List (List Char)
  | [], acc => acc.reverse
  | c :: rest, acc =>
    if c = [] ∨ c = ['.'] then cleanComps rooted rest acc
    else if c = ['.', '.'] then
      match acc with
      | [] =>
        if rooted then cleanComps rooted rest []
        else cleanComps rooted rest [['.', '.']]
      | a :: as =>
        if a = ['.', '.'] then cleanComps rooted rest (c :: a :: as)
        else cleanComps rooted rest as
    else cleanComps rooted rest (c :: acc)

def intercalateSlash : List (List Char) → List Char
  | [] => []
  | [c] => c
  | c :: rest => c ++ '/' :: intercalateSlash rest

/-- Embedding of `filepath.Clean` for Unix paths. -/
def goClean (s : String) : String :=
  match s.toList with
  | [] => "."
  | c :: rest =>
    let rooted := c = '/'
    let comps := splitSlash (c :: rest) []
    let flat := intercalateSlash (cleanComps rooted comps [])
    if rooted then String.mk ('/' :: flat)
    else if flat = [] then "."
    else String.mk flat

/-- Embedding of `filepath.Join` on two elements: skip leading empty
elements, join the rest with `/`, and clean the result. -/
def filepathJoin (a b : String) : String :=
  if a ≠ "" then goClean (a ++ "/" ++ b)
  else if b ≠ "" then goClean b
  else ""

/-! ## Configuration resolution performed by `main` -/

def socketPath (env : Env) : String :=
  fromEnvOrDefault env "ORCHESTRATOR_SOCKET_PATH" DefaultSocketPath

def httpPort (env : Env) : String :=
  fromEnvOrDefault env "ORCHESTRATOR_HTTP_PORT" DefaultHttpPort

def httpsPort (env : Env) : String :=
  fromEnvOrDefault env "ORCHESTRATOR_HTTPS_PORT" ""

def tlsCertDir (env : Env) : String :=
  fromEnvOrDefault env "ORCHESTRATOR_TLS_CERT_DIR" DefaultTLSCertDir

def webUIUrlStr (env : Env) : String :=
  fromEnvOrDefault env "ORCHESTRATOR_WEBUI_URL" DefaultWebUIUrl

def certPath (env : Env) : String :=
  filepathJoin (tlsCertDir env) "cert.pem"

def keyPath (env : Env) : String :=
  filepathJoin (tlsCertDir env) "key.pem"

def cvdUser (env : Env) : String :=
  fromEnvOrDefault env "ORCHESTRATOR_CVD_USER" ""

def abURL (env : Env) : String :=
  fromEnvOrDefault env "ORCHESTRATOR_ANDROID_BUILD_URL" defaultAndroidBuildURL

def cvdBinAndroidBuildID (env : Env) : String :=
  fromEnvOrDefault env "ORCHESTRATOR_CVDBIN_ANDROID_BUILD_ID" defaultCVDBinAndroidBuildID

def cvdBinAndroidBuildTarget (env : Env) : String :=
  fromEnvOrDefault env "ORCHESTRATOR_CVDBIN_ANDROID_BUILD_TARGET" defaultCVDBinAndroidBuildTarget

def imRootDir (env : Env) : String :=
  fromEnvOrDefault env "ORCHESTRATOR_CVD_ARTIFACTS_DIR" defaultCVDArtifactsDir

/-! ## Derived filesystem paths and subsystem construction -/

/-- Embedding of `orchestrator.IMPaths`. -/
structure IMPaths where
  RootDir : String
  CVDToolsDir : String
  ArtifactsRootDir : String
  RuntimesRootDir : String
deriving DecidableEq

/-- The `IMPaths` value `main` builds from the resolved artifact root. -/
def imPaths (env : Env) : IMPaths :=
  { RootDir := imRootDir env
    CVDToolsDir := imRootDir env
    ArtifactsRootDir := filepathJoin (imRootDir env) "artifacts"
    RuntimesRootDir := filepathJoin (imRootDir env) "runtimes" }

/-- The user-artifacts root directory `main` hands to
`NewUserArtifactsManagerImpl` (note the source spells the final component
`user_artifacs`). -/
def uamRootDir (env : Env) : String :=
  filepathJoin (imRootDir env) "user_artifacs"

/-- Embedding of `orchestrator.AndroidBuild`. -/
structure AndroidBuild where
  ID : String
  Target : String
deriving DecidableEq

def cvdToolsVersion (env : Env) : AndroidBuild :=
  { ID := cvdBinAndroidBuildID env, Target := cvdBinAndroidBuildTarget env }

/-- Embedding of `orchestrator.Config`. -/
structure OrchConfig where
  Paths : IMPaths
  CVDToolsVersion : AndroidBuild
  AndroidBuildServiceURL : String
  CVDUser : String
deriving DecidableEq

/-- Opaque references to the black-box collaborator instances `main`
constructs exactly once and hands to the controller. -/
inductive ManagerRef where
  | mapOM
  | userArtifactsManagerImpl
  | variablesManager
deriving DecidableEq

/-- One nanosecond, the unit of Go `time.Duration`. -/
def timeNanosecond : Nat := 1

/-- Go `time.Second` in nanoseconds. -/
def timeSecond : Nat := 1000000000

/-- Go `time.Minute` in nanoseconds. -/
def timeMinute : Nat := 60 * timeSecond

/-- Embedding of the fields of `orchestrator.Controller` that `main`
populates. -/
structure Controller where
  Config : OrchConfig
  OperationManager : ManagerRef
  WaitOperationDuration : Nat
  UserArtifactsManager : ManagerRef
  DebugVariablesManager : ManagerRef
deriving DecidableEq

/-- The `orchestrator.Controller` literal built in `main`. -/
def imController (env : Env) : Controller :=
  { Config :=
      { Paths := imPaths env
        CVDToolsVersion := cvdToolsVersion env
        AndroidBuildServiceURL := abURL env
        CVDUser := cvdUser env }
    OperationManager := ManagerRef.mapOM
    WaitOperationDuration := 2 * timeMinute
    UserArtifactsManager := ManagerRef.userArtifactsManagerImpl
    DebugVariablesManager := ManagerRef.variablesManager }

/-- The subsystems `main` constructs, named after the statements that build
them. -/
inductive Subsystem where
  | pool
  | polledSet
  | om
  | uam
  | debugVarsManager
  | router
  | controller
deriving DecidableEq, BEq

/-- The order in which `main` constructs the subsystems: `pool`,
`polledSet`, `om := NewMapOM()`, `uam := NewUserArtifactsManagerImpl`,
`debugVarsManager := debug.NewVariablesManager`,
`r := operator.CreateHttpHandlers`, then `imController`. -/
def constructionOrder : List Subsystem :=
  [Subsystem.pool, Subsystem.polledSet, Subsystem.om, Subsystem.uam,
   Subsystem.debugVarsManager, Subsystem.router, Subsystem.controller]

/-- The collaborators the controller literal references. -/
def controllerDeps : List Subsystem :=
  [Subsystem.om, Subsystem.uam, Subsystem.debugVarsManager]

/-! ## Catch-all fallback choice

The catch-all handler is chosen once, from the resolved web-UI URL string.
`parse` stands for `url.Parse`: it yields a parsed value of some type `U`
together with an optional error; the source binds `webUIUrl, _ :=
url.Parse(webUIUrlStr)`, discarding the error component. -/

inductive Fallback (U : Type) where
  | proxy : U → Fallback U
  | static : String → Fallback U
deriving DecidableEq

/-- Embedding of the fallback installation in `main`: when
`len(webUIUrlStr) > 0`, install `httputil.NewSingleHostReverseProxy` on the
parsed URL (the parse error is dropped); otherwise install
`http.FileServer(http.Dir(DefaultStaticFilesDir))`. -/
def installFallback {U : Type} (parse : String → U × Option String)
    (webUIUrl : String) : Fallback U :=
  if 0 < webUIUrl.length then Fallback.proxy (parse webUIUrl).1
  else Fallback.static DefaultStaticFilesDir

/-! ## Listener starter list -/

/-- The three server-starting operations `main` can hand to `start`. -/
inductive StarterKind where
  | socket
  | http
  | https
deriving DecidableEq, BEq

/-- The starter list built at the end of `main`: the device-endpoint socket
starter and the HTTP starter always, plus the HTTPS starter appended when
the resolved HTTPS port is non-empty. -/
def mainStarters (env : Env) : List StarterKind :=
  let base := [StarterKind.socket, StarterKind.http]
  if httpsPort env ≠ "" then base ++ [StarterKind.https] else base

/-! ## The fail-fast supervisor `start` as a transition system

Each starter is a blocking operation that either serves forever or returns
a `error` value (possibly nil). `start` runs one goroutine per starter;
a goroutine whose operation returns a non-nil error calls `log.Fatal`,
which terminates the whole process. -/

/-- Behaviour of one starter operation: serve forever, or return with an
optional error (Go `error`, where `none` is nil). -/
inductive Behavior where
  | serves
  | returns : Option String → Behavior
deriving DecidableEq

/-- State of one supervised goroutine. -/
inductive UnitState where
  | running : Behavior → UnitState
  | doneOk
  | doneErr : String → UnitState
deriving DecidableEq

/-- Global supervisor state: one `UnitState` per starter, plus whether the
process is still alive. -/
structure SupState where
  units : List UnitState
  alive : Bool
deriving DecidableEq

/-- Initial state of `start starters`: every goroutine launched, process
alive. -/
def initSup (bs : List Behavior) : SupState :=
  { units := bs.map UnitState.running, alive := true }

/-- One scheduler step: a running goroutine whose operation returns may
finish. A nil error completes the goroutine (`wg.Done`); a non-nil error
additionally calls `log.Fatal`, killing the process. A serving operation
never returns, and a dead process takes no further steps. -/
inductive SupStep : SupState → SupState → Prop where
  | finishOk (s : SupState) (i : Nat)
      (halive : s.alive = true)
      (hrun : s.units[i]? = some (UnitState.running (Behavior.returns none))) :
      SupStep s { units := s.units.set i UnitState.doneOk, alive := true }
  | finishErr (s : SupState) (i : Nat) (e : String)
      (halive : s.alive = true)
      (hrun : s.units[i]? = some (UnitState.running (Behavior.returns (some e)))) :
      SupStep s { units := s.units.set i (UnitState.doneErr e), alive := false }

/-- Reachability of supervisor states. -/
def SupReach : SupState → SupState → Prop :=
  Relation.ReflTransGen SupStep

/-! ## Helper values used by concrete instantiations -/

/-- A process has not aborted while no goroutine has returned an error. -/
def noErrState (s : SupState) : Prop :=
  ∀ (i : Nat) (e : String), s.units[i]? ≠ some (UnitState.doneErr e)

/-- Environment of the end-to-end scenario: only `ORCHESTRATOR_HTTP_PORT`
is set. -/
def envHttpOnly : Env := envWith "ORCHESTRATOR_HTTP_PORT" "9000" envEmpty

/-- Environment with both port variables present but empty. -/
def envPortsEmpty : Env :=
  envWith "ORCHESTRATOR_HTTPS_PORT" "" (envWith "ORCHESTRATOR_HTTP_PORT" "" envEmpty)

/-- Environment overriding the TLS cert directory. -/
def envCertDir : Env := envWith "ORCHESTRATOR_TLS_CERT_DIR" "/tmp/certs" envEmpty

/-- A URL parser outcome in which parsing succeeds (models a successful
`url.Parse` run, with the raw string standing for the parsed value). -/
def parseAlwaysOk : String → String × Option String :=
  fun s => (s, none)

/-- A URL parser outcome in which parsing fails with an error value. -/
def parseAlwaysFails : String → String × Option String :=
  fun s => (s, some "parse error")

/-- A one-starter behaviour list whose only operation fails to bind. -/
def bsFail : List Behavior :=
  [Behavior.returns (some "bind: address already in use")]

/-- The state reached after the only starter of `bsFail` returns its
error. -/
def supFailed : SupState :=
  { units := [UnitState.doneErr "bind: address already in use"], alive := false }

/-! ## Claims -/

/-- C2: `maybeIntercept` is total on request paths; the exact input
`/js/server_connector.js` yields `intercept/js/server_connector.js`, and
every other input (the empty string and query-carrying paths included)
yields no replacement. -/
theorem maybeIntercept_exact_match :
    maybeIntercept "/js/server_connector.js" = some "intercept/js/server_connector.js" ∧
    ∀ p : String, p ≠ "/js/server_connector.js" → maybeIntercept p = none := by
  constructor
  · decide
  · intro p hp
    unfold maybeIntercept
    simp [hp]

/-- Witness for C2: concrete non-matching inputs, among them the empty
string and a query-carrying path, are not intercepted. -/
theorem maybeIntercept_exact_match_witness :
    ("" ≠ "/js/server_connector.js" ∧ maybeIntercept "" = none) ∧
    ("/js/server_connector.js?v=1" ≠ "/js/server_connector.js" ∧
      maybeIntercept "/js/server_connector.js?v=1" = none) :=
  ⟨⟨by decide, maybeIntercept_exact_match.2 "" (by decide)⟩,
   ⟨by decide, maybeIntercept_exact_match.2 "/js/server_connector.js?v=1" (by decide)⟩⟩

/-- C3: configuration resolution never fails: an unset variable resolves
to the supplied default and a set variable resolves to its exact value,
with no parsing or validation. -/
theorem fromEnvOrDefault_resolution (env : Env) (key dflt : String) :
    (env key = none → fromEnvOrDefault env key dflt = dflt) ∧
    ∀ v, env key = some v → fromEnvOrDefault env key dflt = v := by
  unfold fromEnvOrDefault
  constructor
  · intro h
    rw [h]
  · intro v h
    rw [h]

/-- Witness for C3: the HTTP port resolves to its default in the empty
environment and to the exact set value otherwise. -/
theorem fromEnvOrDefault_resolution_witness :
    (envEmpty "ORCHESTRATOR_HTTP_PORT" = none ∧
      fromEnvOrDefault envEmpty "ORCHESTRATOR_HTTP_PORT" DefaultHttpPort = DefaultHttpPort) ∧
    (envHttpOnly "ORCHESTRATOR_HTTP_PORT" = some "9000" ∧
      fromEnvOrDefault envHttpOnly "ORCHESTRATOR_HTTP_PORT" DefaultHttpPort = "9000") :=
  ⟨⟨rfl, (fromEnvOrDefault_resolution envEmpty "ORCHESTRATOR_HTTP_PORT" DefaultHttpPort).1 rfl⟩,
   ⟨by decide,
    (fromEnvOrDefault_resolution envHttpOnly "ORCHESTRATOR_HTTP_PORT" DefaultHttpPort).2 "9000"
      (by decide)⟩⟩

/-- C7: the TLS material paths are the resolved cert directory joined with
`cert.pem` and `key.pem`, whether that directory came from the environment
or from the default. -/
theorem tls_material_paths (env : Env) :
    (env "ORCHESTRATOR_TLS_CERT_DIR" = none →
      certPath env = filepathJoin DefaultTLSCertDir "cert.pem" ∧
      keyPath env = filepathJoin DefaultTLSCertDir "key.pem") ∧
    ∀ d, env "ORCHESTRATOR_TLS_CERT_DIR" = some d →
      certPath env = filepathJoin d "cert.pem" ∧
      keyPath env = filepathJoin d "key.pem" := by
  unfold certPath keyPath tlsCertDir fromEnvOrDefault
  constructor
  · intro h
    rw [h]
    exact ⟨rfl, rfl⟩
  · intro d h
    rw [h]
    exact ⟨rfl, rfl⟩

/-- Witness for C7: both the defaulted directory and an
environment-provided one produce `cert.pem`/`key.pem` paths under that
directory, with the defaulted cert path evaluating to its concrete
value. -/
theorem tls_material_paths_witness :
    (envEmpty "ORCHESTRATOR_TLS_CERT_DIR" = none ∧
      certPath envEmpty = filepathJoin DefaultTLSCertDir "cert.pem" ∧
      keyPath envEmpty = filepathJoin DefaultTLSCertDir "key.pem") ∧
    (envCertDir "ORCHESTRATOR_TLS_CERT_DIR" = some "/tmp/certs" ∧
      certPath envCertDir = filepathJoin "/tmp/certs" "cert.pem" ∧
      keyPath envCertDir = filepathJoin "/tmp/certs" "key.pem") ∧
    certPath envEmpty = "/etc/cuttlefish-common/host_orchestrator/cert/cert.pem" ∧
    certPath envCertDir = "/tmp/certs/cert.pem" :=
  ⟨⟨rfl, (tls_material_paths envEmpty).1 rfl⟩,
   ⟨by decide, (tls_material_paths envCertDir).2 "/tmp/certs" (by decide)⟩,
   by decide, by decide⟩

/-- C6 (evaluation at the failing input): with the artifact root defaulted
to `/var/lib/cuttlefish-common`, the tools, artifacts and runtimes paths
are derived as claimed, but the user-artifacts root the code computes is
`/var/lib/cuttlefish-common/user_artifacs`, not the claimed
`.../user_artifacts`. -/
theorem user_artifacts_dir_misspelled :
    (imPaths envEmpty).CVDToolsDir = imRootDir envEmpty ∧
    (imPaths envEmpty).ArtifactsRootDir = "/var/lib/cuttlefish-common/artifacts" ∧
    (imPaths envEmpty).RuntimesRootDir = "/var/lib/cuttlefish-common/runtimes" ∧
    uamRootDir envEmpty = "/var/lib/cuttlefish-common/user_artifacs" ∧
    uamRootDir envEmpty ≠ filepathJoin (imRootDir envEmpty) "user_artifacts" := by
  refine ⟨rfl, by decide, by decide, by decide, by decide⟩

/-- C10: a present-but-empty environment variable resolves to the empty
string, not to the default; an empty `ORCHESTRATOR_HTTPS_PORT` still
disables the TLS starter, and an empty `ORCHESTRATOR_HTTP_PORT` makes the
HTTP port empty instead of `1080`. -/
theorem empty_env_value_resolution (env : Env) :
    (∀ key dflt, env key = some "" → fromEnvOrDefault env key dflt = "") ∧
    (env "ORCHESTRATOR_HTTPS_PORT" = some "" →
      mainStarters env = [StarterKind.socket, StarterKind.http]) ∧
    (env "ORCHESTRATOR_HTTP_PORT" = some "" →
      httpPort env = "" ∧ httpPort env ≠ DefaultHttpPort) := by
  refine ⟨?_, ?_, ?_⟩
  · intro key dflt h
    unfold fromEnvOrDefault
    rw [h]
  · intro h
    have hport : httpsPort env = "" := by
      unfold httpsPort fromEnvOrDefault
      rw [h]
    unfold mainStarters
    simp [hport]
  · intro h
    have hport : httpPort env = "" := by
      unfold httpPort fromEnvOrDefault
      rw [h]
    exact ⟨hport, by rw [hport]; decide⟩

/-- Witness for C10: in an environment where both port variables are set
to the empty string, no TLS starter appears and the HTTP port is empty. -/
theorem empty_env_value_resolution_witness :
    (envPortsEmpty "ORCHESTRATOR_HTTPS_PORT" = some "" ∧
      mainStarters envPortsEmpty = [StarterKind.socket, StarterKind.http]) ∧
    (envPortsEmpty "ORCHESTRATOR_HTTP_PORT" = some "" ∧
      httpPort envPortsEmpty = "" ∧ httpPort envPortsEmpty ≠ DefaultHttpPort) :=
  ⟨⟨by decide, (empty_env_value_resolution envPortsEmpty).2.1 (by decide)⟩,
   ⟨by decide, (empty_env_value_resolution envPortsEmpty).2.2 (by decide)⟩⟩

/-- C4: the starter list always holds exactly the control-socket starter
and the HTTP starter, holds the HTTPS starter exactly when the resolved
HTTPS port is non-empty, and in the scenario where only
`ORCHESTRATOR_HTTP_PORT` is set no HTTPS starter is present. -/
theorem starter_list_composition (env : Env) :
    (mainStarters env = [StarterKind.socket, StarterKind.http] ∨
      mainStarters env = [StarterKind.socket, StarterKind.http, StarterKind.https]) ∧
    (StarterKind.https ∈ mainStarters env ↔ httpsPort env ≠ "") ∧
    mainStarters envHttpOnly = [StarterKind.socket, StarterKind.http] := by
  refine ⟨?_, ?_, by decide⟩
  · unfold mainStarters
    by_cases h : httpsPort env = ""
    · left
      simp [h]
    · right
      simp [h]
  · unfold mainStarters
    by_cases h : httpsPort env = ""
    · simp [h]
    · simp [h]

/-- Witness for C4: a non-empty HTTPS port in the environment yields the
HTTPS starter, while the HTTP-only scenario yields only the socket and
HTTP starters. -/
theorem starter_list_composition_witness :
    (httpsPort (envWith "ORCHESTRATOR_HTTPS_PORT" "8443" envEmpty) ≠ "" ∧
      StarterKind.https ∈ mainStarters (envWith "ORCHESTRATOR_HTTPS_PORT" "8443" envEmpty)) ∧
    mainStarters envHttpOnly = [StarterKind.socket, StarterKind.http] :=
  ⟨⟨by decide,
    (starter_list_composition (envWith "ORCHESTRATOR_HTTPS_PORT" "8443" envEmpty)).2.1.mpr
      (by decide)⟩,
   (starter_list_composition envEmpty).2.2⟩

/-- C5: the catch-all handler is chosen once from the resolved web-UI URL:
a non-empty URL installs the single-host reverse proxy on the parsed
value of that URL, an empty one installs the file server rooted at
`static`. -/
theorem catchall_fallback_choice {U : Type} (parse : String → U × Option String)
    (s : String) :
    (0 < s.length → installFallback parse s = Fallback.proxy (parse s).1) ∧
    (s.length = 0 → installFallback parse s = Fallback.static DefaultStaticFilesDir) := by
  unfold installFallback
  constructor
  · intro h
    simp [h]
  · intro h
    simp [h]

/-- Witness for C5: a concrete web-UI URL selects the proxy on its parsed
value, and the empty URL selects the static file server rooted at
`static`. -/
theorem catchall_fallback_choice_witness :
    (0 < ("http://ui.internal" : String).length ∧
      installFallback parseAlwaysOk "http://ui.internal" =
        Fallback.proxy (parseAlwaysOk "http://ui.internal").1) ∧
    (("" : String).length = 0 ∧
      installFallback parseAlwaysOk "" = Fallback.static "static") :=
  ⟨⟨by decide, (catchall_fallback_choice parseAlwaysOk "http://ui.internal").1 (by decide)⟩,
   ⟨rfl, (catchall_fallback_choice parseAlwaysOk "").2 rfl⟩⟩

/-- C9: when the web-UI URL string is non-empty, the reverse proxy is
installed unconditionally: even a parse outcome carrying an error value
selects the proxy fallback on the (possibly meaningless) parsed value,
never the static file server and never an abort. -/
theorem proxy_installed_despite_parse_error {U : Type}
    (parse : String → U × Option String) (s : String) (e : String)
    (hlen : 0 < s.length) (herr : (parse s).2 = some e) :
    installFallback parse s = Fallback.proxy (parse s).1 := by
  unfold installFallback
  simp [hlen]

/-- Witness for C9: a parser that rejects its input still yields the proxy
fallback on a non-empty URL string. -/
theorem proxy_installed_despite_parse_error_witness :
    (0 < ("http://bad url" : String).length ∧
      (parseAlwaysFails "http://bad url").2 = some "parse error") ∧
    installFallback parseAlwaysFails "http://bad url" =
      Fallback.proxy (parseAlwaysFails "http://bad url").1 :=
  ⟨⟨by decide, rfl⟩,
   proxy_installed_despite_parse_error parseAlwaysFails "http://bad url" "parse error"
     (by decide) rfl⟩

/-- C8: the controller is the last subsystem constructed, after the
operation manager, the user-artifact manager and the debug-variable
registry it references, and its long-operation wait bound is two minutes
(`2 * time.Minute` nanoseconds). -/
theorem controller_constructed_last (env : Env) :
    constructionOrder.getLast? = some Subsystem.controller ∧
    constructionOrder.indexOf Subsystem.om <
      constructionOrder.indexOf Subsystem.controller ∧
    constructionOrder.indexOf Subsystem.uam <
      constructionOrder.indexOf Subsystem.controller ∧
    constructionOrder.indexOf Subsystem.debugVarsManager <
      constructionOrder.indexOf Subsystem.controller ∧
    (imController env).WaitOperationDuration = 2 * timeMinute ∧
    2 * timeMinute = 120000000000 :=
  ⟨by decide, by decide, by decide, by decide, rfl, by decide⟩
/-- A supervisor step never changes the number of goroutines: no listener
is ever added (restarted) after `start` launches the initial set. -/
theorem supStep_length {s t : SupState} (h : SupStep s t) :
    t.units.length = s.units.length := by
  cases h with
  | finishOk i halive hrun => simp
  | finishErr i e halive hrun => simp

/-- Reachable states keep the initial number of goroutines. -/
theorem supReach_length {s t : SupState} (h : SupReach s t) :
    t.units.length = s.units.length := by
  induction h with
  | refl => rfl
  | tail hab hbc ih => rw [supStep_length hbc, ih]

/-- The source state of any supervisor step has a live process. -/
theorem supStep_src_alive {s t : SupState} (h : SupStep s t) : s.alive = true := by
  cases h with
  | finishOk i halive hrun => exact halive
  | finishErr i e halive hrun => exact halive

/-- A step taken from a state with no errored goroutine that leaves the
process alive still has no errored goroutine. -/
theorem supStep_noErr {s t : SupState} (h : SupStep s t) (hs : noErrState s) :
    t.alive = true → noErrState t := by
  cases h with
  | finishOk i halive hrun =>
    intro _ j e hj
    by_cases hij : i = j
    · subst hij
      have hlt : i < s.units.length := by
        rcases List.getElem?_eq_some_iff.mp hrun with ⟨hlt, _⟩
        exact hlt
      rw [List.getElem?_set_self hlt] at hj
      simp at hj
    · rw [List.getElem?_set_ne hij] at hj
      exact hs j e hj
  | finishErr i e halive hrun =>
    intro hcontra
    simp at hcontra

/-- In any state reachable from the launch of `start`, the process is only
alive while no goroutine has returned an error. -/
theorem supReach_noErr (bs : List Behavior) (s : SupState)
    (h : SupReach (initSup bs) s) : s.alive = true → noErrState s := by
  induction h with
  | refl =>
    intro _ i e hi
    rw [initSup, List.getElem?_map] at hi
    cases hb : bs[i]? with
    | none => rw [hb] at hi; simp at hi
    | some b => rw [hb] at hi; simp at hi
  | tail hab hbc ih =>
    intro halive
    exact supStep_noErr hbc (ih (supStep_src_alive hbc)) halive

/-- C1: fail-fast supervision. From any non-empty starter list, in every
reachable supervisor state: a goroutine that has returned an error means
the process is no longer alive; the set of goroutines never grows or
shrinks (no restart); a dead process takes no further serving steps; and a
failed goroutine stays failed across every step (no retry). -/
theorem listener_failure_fatal (bs : List Behavior) (hne : bs ≠ []) (s : SupState)
    (hreach : SupReach (initSup bs) s) :
    (∀ (i : Nat) (e : String), s.units[i]? = some (UnitState.doneErr e) →
      s.alive = false) ∧
    s.units.length = bs.length ∧
    (s.alive = false → ∀ t, ¬ SupStep s t) ∧
    (∀ t, SupStep s t → ∀ (i : Nat) (e : String),
      s.units[i]? = some (UnitState.doneErr e) →
      t.units[i]? = some (UnitState.doneErr e)) := by
  refine ⟨?_, ?_, ?_, ?_⟩
  · intro i e hi
    cases halive : s.alive with
    | false => rfl
    | true => exact absurd hi (supReach_noErr bs s hreach halive i e)
  · rw [supReach_length hreach]
    simp [initSup]
  · intro hdead t hstep
    rw [supStep_src_alive hstep] at hdead
    exact Bool.noConfusion hdead
  · intro t hstep i e hi
    cases hstep with
    | finishOk j halive hrun =>
      have hij : j ≠ i := by
        intro hji
        subst hji
        rw [hrun] at hi
        simp at hi
      rw [List.getElem?_set_ne hij]
      exact hi
    | finishErr j e' halive hrun =>
      have hij : j ≠ i := by
        intro hji
        subst hji
        rw [hrun] at hi
        simp at hi
      rw [List.getElem?_set_ne hij]
      exact hi

/-- Witness for C1: a single starter failing to bind drives the supervisor
to a reachable state in which the process is dead. -/
theorem listener_failure_fatal_witness :
    (bsFail ≠ [] ∧ SupReach (initSup bsFail) supFailed) ∧ supFailed.alive = false :=
  have hne : bsFail ≠ [] := by decide
  have hreach : SupReach (initSup bsFail) supFailed :=
    Relation.ReflTransGen.single
      (SupStep.finishErr (initSup bsFail) 0 "bind: address already in use" rfl rfl)
  ⟨⟨hne, hreach⟩,
   (listener_failure_fatal bsFail hne supFailed hreach).1 0
     "bind: address already in use" rfl⟩
